import Mathlib

/-!
Verification of the cappuccino task-orchestration core: the task context
memory (`src/agent/memory.py`), the agent dispatch loop (`src/agent/agent.py`),
the dispatch response parsing (`src/agent/planner.py`), the MCP client manager
(`src/agent/mcp/client.py`) and the executor coordinate conversion
(`src/agent/executor.py`), as a shallow embedding in Lean.

Machine integers are modelled as `Int`/`Nat` (Python integers are unbounded),
Python `None` as `Json.null`, Python dicts as insertion-ordered association
lists, and code that can raise as `Except`/`Option`-valued functions. File
persistence (`TaskContextMemory._save_to_file`) swallows every exception and
never changes the in-memory state, so the state-transforming methods are
embedded as pure state transformers.
-/

/-- JSON-like values: the shallow embedding of the Python scalars, lists and
dicts that the agent passes around. Python `None` is `Json.null`; dicts are
association lists in insertion order. Numbers are restricted to integers,
which covers every number the embedded code constructs. -/
inductive Json where
  | null
  | bool (b : Bool)
  | num (n : Int)
  | str (s : String)
  | arr (elems : List Json)
  | obj (fields : List (String × Json))
deriving Repr

/-- Lookup in a Python dict modelled as an association list (first match;
the embedded code never builds duplicate keys). -/
def lookupField {β : Type} : List (String × β) → String → Option β
  | [], _ => none
  | (k, v) :: rest, key => if k = key then some v else lookupField rest key

/-- Python truthiness of a JSON-like value, as used by `if not action` and
`if not action.get("type")` in `Agent.process`. -/
def pyTruthy : Json → Bool
  | .null => false
  | .bool b => b
  | .num n => n != 0
  | .str s => s != ""
  | .arr xs => !xs.isEmpty
  | .obj fs => !fs.isEmpty

/-- Exceptions of the embedded Python code that escape a function, plus one
explicit embedding-boundary marker. `attributeError`: `.get` on a non-dict.
`keyError`: `d[k]` with a missing key. `typeError`: a dict assignment
`d[key] = value` whose key is unhashable (a Python list or dict).
`unmodelled`: not a Python exception but the embedding's explicit marker for
a scratch-map or plan write of a non-string value — Python stores it outside
the `Dict[str, str]`/`str` declared field types, which this state model does
not represent; no theorem in this file depends on this constructor. -/
inductive PyError where
  | attributeError
  | keyError (key : String)
  | typeError
  | unmodelled
deriving Repr

/-- Model of Python `d.get(key, dflt)`: total lookup with a default on a dict;
calling `.get` on any non-dict value raises `AttributeError`. -/
def pyGetD (j : Json) (key : String) (dflt : Json) : Except PyError Json :=
  match j with
  | .obj fields => .ok ((lookupField fields key).getD dflt)
  | _ => .error .attributeError

/-- Extracts the string of a JSON string value. -/
def Json.asStr : Json → Option String
  | .str s => some s
  | _ => none

/-- One recorded action of `TaskContextMemory` (`DispatcherAction` in
`src/agent/memory.py`). `result` is `Json.null` when the Python `result`
attribute is `None`. The constructor's nondeterministic
`datetime.now().isoformat()` timestamp is passed in explicitly. -/
structure DispatcherAction where
  action_type : String
  params : Json
  result : Json
  timestamp : String
deriving Repr

/-- `DispatcherAction.to_dict`. -/
def DispatcherAction.to_dict (a : DispatcherAction) : Json :=
  .obj [("action_type", .str a.action_type),
        ("params", a.params),
        ("result", a.result),
        ("timestamp", .str a.timestamp)]

/-- `DispatcherAction.from_dict`: `data["action_type"]` and `data["params"]`
are required (a `KeyError` on a missing key and the documented `str` type of
`action_type`/`timestamp` are modelled by `none`); `result` and `timestamp`
fall back to `data.get` defaults, the timestamp default being the current
time `now`. -/
def DispatcherAction.from_dict (data : Json) (now : String) : Option DispatcherAction :=
  match data with
  | .obj fs => do
    let tj ← lookupField fs "action_type"
    let action_type ← tj.asStr
    let params ← lookupField fs "params"
    let result := (lookupField fs "result").getD .null
    let timestamp ← match lookupField fs "timestamp" with
      | none => some now
      | some j => j.asStr
    some ⟨action_type, params, result, timestamp⟩
  | _ => none

/-- Task context memory (`TaskContextMemory` in `src/agent/memory.py`):
the single mutable state container of one task run. `saved_info` follows the
declared type `Dict[str, str]`. -/
structure TaskContextMemory where
  task_id : String
  user_query : String
  current_plan : String
  run_folder : String
  dispatcher_actions : List DispatcherAction
  saved_info : List (String × String)
  current_step : Int
  created_at : String
deriving Repr

/-- `TaskContextMemory.__init__`: fresh memory for a task (`created_at` stands
for the constructor's `datetime.now().isoformat()`). -/
def TaskContextMemory.init (task_id user_query run_folder created_at : String) :
    TaskContextMemory :=
  ⟨task_id, user_query, "", run_folder, [], [], 0, created_at⟩

/-- Python dict assignment `d[k] = v`: replaces the value at an existing key in
place, otherwise appends the pair (insertion order preserved). -/
def dictInsert : List (String × String) → String → String → List (String × String)
  | [], k, v => [(k, v)]
  | (k0, v0) :: rest, k, v =>
    if k0 = k then (k0, v) :: rest else (k0, v0) :: dictInsert rest k v

/-- `TaskContextMemory.set_plan` (the trailing `_save_to_file` is a swallowed
best-effort file write and does not change the in-memory state). -/
def TaskContextMemory.set_plan (m : TaskContextMemory) (plan : String) :
    TaskContextMemory :=
  { m with current_plan := plan }

/-- `TaskContextMemory.save_info`. -/
def TaskContextMemory.save_info (m : TaskContextMemory) (key value : String) :
    TaskContextMemory :=
  { m with saved_info := dictInsert m.saved_info key value }

/-- `TaskContextMemory.add_dispatcher_action`: increments `current_step`, then
appends one `DispatcherAction` built from the arguments (with the current
time passed in as `timestamp`). -/
def TaskContextMemory.add_dispatcher_action (m : TaskContextMemory)
    (action_type : String) (params : Json) (result : Json) (timestamp : String) :
    TaskContextMemory :=
  { m with
    current_step := m.current_step + 1,
    dispatcher_actions := m.dispatcher_actions ++ [⟨action_type, params, result, timestamp⟩] }

/-- Python list slice `xs[-n:]` for a nonnegative `n`: the last `n` elements
when `n ≥ 1`; for `n = 0`, `-0 == 0` so the slice is `xs[0:]`, the whole
list. -/
def pySliceLast {α : Type} (xs : List α) (n : Nat) : List α :=
  if n = 0 then xs else xs.drop (xs.length - n)

/-- `TaskContextMemory.get_recent_actions`: `self.dispatcher_actions[-n:]` when
the history is longer than `n`, otherwise the whole history. -/
def TaskContextMemory.get_recent_actions (m : TaskContextMemory) (n : Nat) :
    List DispatcherAction :=
  if m.dispatcher_actions.length > n then pySliceLast m.dispatcher_actions n
  else m.dispatcher_actions

/-- `TaskContextMemory.get_all_actions`. -/
def TaskContextMemory.get_all_actions (m : TaskContextMemory) : List DispatcherAction :=
  m.dispatcher_actions

/-- Serialization of the `saved_info` dict. -/
def savedInfoToJson (si : List (String × String)) : Json :=
  .obj (si.map fun kv => (kv.1, .str kv.2))

/-- `TaskContextMemory.to_dict`. -/
def TaskContextMemory.to_dict (m : TaskContextMemory) : Json :=
  .obj [("task_id", .str m.task_id),
        ("user_query", .str m.user_query),
        ("current_plan", .str m.current_plan),
        ("current_step", .num m.current_step),
        ("created_at", .str m.created_at),
        ("dispatcher_actions", .arr (m.dispatcher_actions.map DispatcherAction.to_dict)),
        ("saved_info", savedInfoToJson m.saved_info)]

/-- String field with a `data.get(key, dflt)` default (the documented `str`
field type is modelled by failing on a non-string value). -/
def strFieldD (fs : List (String × Json)) (key dflt : String) : Option String :=
  match lookupField fs key with
  | none => some dflt
  | some (.str s) => some s
  | some _ => none

/-- Decoding of the `saved_info` dict back into its declared
`Dict[str, str]` shape. -/
def savedInfoFromJson : List (String × Json) → Option (List (String × String))
  | [] => some []
  | (k, .str v) :: rest => (savedInfoFromJson rest).map (fun r => (k, v) :: r)
  | _ => none

/-- Decoding of the serialized actions list (the list comprehension in
`TaskContextMemory.from_dict`). -/
def decodeActions (now : String) : List Json → Option (List DispatcherAction)
  | [] => some []
  | j :: rest => do
    let a ← DispatcherAction.from_dict j now
    let r ← decodeActions now rest
    some (a :: r)

/-- `TaskContextMemory.from_dict`: constructs a fresh memory for `run_folder`
and restores every serialized field with `data.get` defaults (`now` stands for
the `datetime.now().isoformat()` default of `created_at` and of the restored
actions' timestamps). Fields that do not have their documented type are
modelled by `none`. -/
def TaskContextMemory.from_dict (data : Json) (run_folder now : String) :
    Option TaskContextMemory :=
  match data with
  | .obj fs => do
    let task_id ← strFieldD fs "task_id" ""
    let user_query ← strFieldD fs "user_query" ""
    let current_plan ← strFieldD fs "current_plan" ""
    let current_step ← match lookupField fs "current_step" with
      | none => some (0 : Int)
      | some (.num n) => some n
      | some _ => none
    let created_at ← strFieldD fs "created_at" now
    let saved_info ← match lookupField fs "saved_info" with
      | none => some []
      | some (.obj sf) => savedInfoFromJson sf
      | some _ => none
    let dispatcher_actions ← match lookupField fs "dispatcher_actions" with
      | none => some []
      | some (.arr xs) => decodeActions now xs
      | some _ => none
    some ⟨task_id, user_query, current_plan, run_folder,
          dispatcher_actions, saved_info, current_step, created_at⟩
  | _ => none

/-- The last `k` elements of a list, in their original order. -/
def lastN {α : Type} (xs : List α) (k : Nat) : List α :=
  xs.drop (xs.length - k)

/-- Memory after a sequence of `add_dispatcher_action` appends. -/
def appendAll (m : TaskContextMemory) (acts : List DispatcherAction) : TaskContextMemory :=
  acts.foldl (fun mm a => mm.add_dispatcher_action a.action_type a.params a.result a.timestamp) m

/-- Memory mutations reachable on a live task's state besides construction:
action append, plan replacement and scratch-map write. -/
inductive MemOp where
  | addAction (action_type : String) (params result : Json) (ts : String)
  | setPlan (plan : String)
  | saveInfo (key value : String)

/-- Application of one memory mutation. -/
def applyMemOp (m : TaskContextMemory) : MemOp → TaskContextMemory
  | .addAction t p r ts => m.add_dispatcher_action t p r ts
  | .setPlan plan => m.set_plan plan
  | .saveInfo k v => m.save_info k v

/-- Whitespace skipping of the JSON grammar. -/
def skipWs : List Char → List Char
  | c :: cs => if c = ' ' ∨ c = '\t' ∨ c = '\n' ∨ c = '\r' then skipWs cs else c :: cs
  | [] => []

/-- Consumes leading decimal digits, accumulating their value. -/
def takeDigits : List Char → Nat → Nat × List Char
  | c :: cs, acc =>
    if c.isDigit then takeDigits cs (acc * 10 + (c.toNat - '0'.toNat)) else (acc, c :: cs)
  | [], acc => (acc, [])

/-- Characters of a JSON string literal after the opening quote, up to the
closing quote (escape sequences are outside the modelled fragment). -/
def parseStringChars : List Char → Option (List Char × List Char)
  | [] => none
  | c :: cs =>
    if c = '"' then some ([], cs)
    else if c = '\\' then none
    else (parseStringChars cs).map (fun p => (c :: p.1, p.2))

mutual

/-- One JSON value, by recursive descent with explicit fuel. -/
def parseJsonValue : Nat → List Char → Option (Json × List Char)
  | 0, _ => none
  | fuel + 1, input =>
    match skipWs input with
    | 'n' :: 'u' :: 'l' :: 'l' :: rest => some (.null, rest)
    | 't' :: 'r' :: 'u' :: 'e' :: rest => some (.bool true, rest)
    | 'f' :: 'a' :: 'l' :: 's' :: 'e' :: rest => some (.bool false, rest)
    | '"' :: rest => (parseStringChars rest).map (fun p => (Json.str (String.mk p.1), p.2))
    | '[' :: rest =>
      (match skipWs rest with
       | ']' :: rest2 => some (.arr [], rest2)
       | other => (parseJsonItems fuel other).map (fun p => (Json.arr p.1, p.2)))
    | '{' :: rest =>
      (match skipWs rest with
       | '}' :: rest2 => some (.obj [], rest2)
       | other => (parseJsonMembers fuel other).map (fun p => (Json.obj p.1, p.2)))
    | '-' :: c :: rest =>
      if c.isDigit then
        (let p := takeDigits (c :: rest) 0; some (.num (-(p.1 : Int)), p.2))
      else none
    | c :: rest =>
      if c.isDigit then
        (let p := takeDigits (c :: rest) 0; some (.num (p.1 : Int), p.2))
      else none
    | [] => none

/-- Comma-separated array items up to the closing bracket. -/
def parseJsonItems : Nat → List Char → Option (List Json × List Char)
  | 0, _ => none
  | fuel + 1, input => do
    let (v, rest) ← parseJsonValue fuel input
    match skipWs rest with
    | ',' :: rest2 => (parseJsonItems fuel rest2).map (fun p => (v :: p.1, p.2))
    | ']' :: rest2 => some ([v], rest2)
    | _ => none

/-- Comma-separated object members up to the closing brace. -/
def parseJsonMembers : Nat → List Char → Option (List (String × Json) × List Char)
  | 0, _ => none
  | fuel + 1, input =>
    match skipWs input with
    | '"' :: rest => do
      let (kChars, rest1) ← parseStringChars rest
      match skipWs rest1 with
      | ':' :: rest2 => do
        let (v, rest3) ← parseJsonValue fuel rest2
        (match skipWs rest3 with
         | ',' :: rest4 =>
           (parseJsonMembers fuel rest4).map (fun p => ((String.mk kChars, v) :: p.1, p.2))
         | '}' :: rest4 => some ([(String.mk kChars, v)], rest4)
         | _ => none)
      | _ => none
    | _ => none

end

/-- Model of the stdlib `json.loads` collaborator, restricted to the JSON
fragment the embedded code exercises (null, booleans, integers, strings
without escape sequences, arrays, objects); decoding fails unless the whole
input is one JSON value. A failure models `json.JSONDecodeError`. -/
def json_loads (s : String) : Option Json :=
  match parseJsonValue (s.length + 1) s.data with
  | some (v, rest) => if (skipWs rest).isEmpty then some v else none
  | none => none

/-- Model of Python `str.replace`: replaces the non-overlapping occurrences of
a non-empty pattern, left to right (fuel is the remaining input length). -/
def pyReplaceAux (pat rep : List Char) : Nat → List Char → List Char
  | 0, s => s
  | fuel + 1, s =>
    match s with
    | [] => []
    | c :: rest =>
      if pat ≠ [] ∧ pat.isPrefixOf s then
        rep ++ pyReplaceAux pat rep fuel (s.drop pat.length)
      else c :: pyReplaceAux pat rep fuel rest

/-- Python `content.replace(pat, rep)` on strings. -/
def pyReplace (content pat rep : String) : String :=
  String.mk (pyReplaceAux pat.data rep.data content.data.length content.data)

/-- Leading-whitespace removal, one side of Python `str.strip()`. -/
def dropLeadingWs : List Char → List Char
  | c :: cs => if c = ' ' ∨ c = '\t' ∨ c = '\n' ∨ c = '\r' then dropLeadingWs cs else c :: cs
  | [] => []

/-- Model of Python `str.strip()`: removes leading and trailing whitespace. -/
def pyStrip (s : String) : String :=
  String.mk ((dropLeadingWs (dropLeadingWs s.data).reverse).reverse)

/-- The code-fence stripping of `Planner._parse_dispatch_response`:
`content.replace("```json", "").replace("```", "").strip()`. -/
def stripCodeFences (content : String) : String :=
  pyStrip (pyReplace (pyReplace content "```json" "") "```" "")

/-- `Planner._parse_dispatch_response`: strips code fences, decodes JSON, and
on `json.JSONDecodeError` returns the sentinel rationale `"解析失败"` with the
empty action envelope. Only `JSONDecodeError` is caught: when the content
decodes to a non-dict JSON value, `json_dict.get` raises `AttributeError`. -/
def parse_dispatch_response (content : String) : Except PyError (Json × Json) :=
  match json_loads (stripCodeFences content) with
  | none => .ok (.str "解析失败", .obj [])
  | some (.obj fields) =>
    .ok ((lookupField fields "thinking").getD (.str ""),
         (lookupField fields "action").getD (.obj []))
  | some _ => .error .attributeError

/-- `Executor._convert_coordinate`: the snapshot dimensions are `none` before
any snapshot has been observed; Python float arithmetic is modelled by exact
rationals. With falsy (`None` or zero) dimensions the coordinate passes
through unconverted, otherwise it is scaled from the normalized 0 to 1000
square to absolute pixels. -/
def convert_coordinate (original_width original_height : Option ℚ)
    (relative_coordinate : ℚ × ℚ) : ℚ × ℚ :=
  match original_width, original_height with
  | some w, some h =>
    if w = 0 ∨ h = 0 then relative_coordinate
    else (relative_coordinate.1 / 1000 * w, relative_coordinate.2 / 1000 * h)
  | _, _ => relative_coordinate

/-- Result value of one MCP tool call (`MCPToolResult` in
`src/agent/mcp/client.py`); `data` is `Json.null` for the Python `None`
default. -/
structure MCPToolResult where
  success : Bool
  server_name : String
  tool_name : String
  data : Json
  error_message : String
deriving Repr

/-- Behavior of one session's `call_tool` transport round-trip: the `await`
either raises or returns a `CallToolResult` carrying the `isError` flag, the
`TextContent` texts and the optional structured payload. -/
inductive RawCall where
  | raises (msg : String)
  | returns (isError : Bool) (contentTexts : List String) (structured : Option Json)

/-- One registered server entry (`self._servers[name]`): launch config, the
session's transport behavior and the fetched tool catalog. -/
structure ServerInfo where
  config : Json
  call : String → Json → RawCall
  tools : List String

/-- `MCPClientManager` state: the server registry, and the teardown outcomes
(`true` means that entered context's teardown succeeds) of the contexts held
by the `AsyncExitStack`, in entry order. -/
structure MCPClientManager where
  servers : List (String × ServerInfo)
  exitStack : List Bool

/-- Python `"\n".join(texts)` when `texts` is truthy, `None` otherwise. -/
def joinedOrNull (texts : List String) : Json :=
  if texts.isEmpty then .null else .str (String.intercalate "\n" texts)

/-- `MCPClientManager.call_tool`, paired with the number of transport attempts
(`session.call_tool` invocations) it makes. An unregistered server name
short-circuits into a failure result with zero transport attempts; on a
registered server, a transport exception is captured into the result instead
of propagating. -/
def MCPClientManager.call_tool (m : MCPClientManager) (server_name tool_name : String)
    (arguments : Json) : MCPToolResult × Nat :=
  match lookupField m.servers server_name with
  | none =>
    ({ success := false, server_name := server_name, tool_name := tool_name,
       data := .null,
       error_message := "Server '" ++ server_name ++ "' not found" }, 0)
  | some info =>
    match info.call tool_name arguments with
    | .raises msg =>
      ({ success := false, server_name := server_name, tool_name := tool_name,
         data := .null, error_message := msg }, 1)
    | .returns isError texts structured =>
      let data :=
        match structured with
        | some sc => if pyTruthy sc then sc else joinedOrNull texts
        | none => joinedOrNull texts
      ({ success := !isError, server_name := server_name, tool_name := tool_name,
         data := data,
         error_message := if isError then String.intercalate "\n" texts else "" }, 1)

/-- `MCPClientManager.close_all`: clears the server registry, then calls
`AsyncExitStack.aclose()`, which unwinds every entered context and re-raises
when the teardown of one of them raised. The pair holds the state after the
call and whether an exception escaped to the caller. -/
def MCPClientManager.close_all (m : MCPClientManager) :
    MCPClientManager × Except String Unit :=
  if m.exitStack.all (fun b => b) then (⟨[], []⟩, .ok ())
  else (⟨[], []⟩, .error "exception raised during session teardown")

/-- Outcome of the main loop of one `Agent.process` run. -/
inductive LoopOutcome where
  | noAction
  | replied (message : Json)
  | budgetExhausted
deriving Repr

/-- Whether the run ended through the `reply` transition. -/
def LoopOutcome.isReplied : LoopOutcome → Bool
  | .replied _ => true
  | _ => false

/-- Environment of one `Agent.process` run: the behavior of the external
collaborators at each iteration `i` (1-based). `dispatchAction i` is the
action envelope parsed out of `Planner.dispatch`; `executorPerformed i` the
primitive actions the Input Executor performs; `mcpServersAvailable` whether
`mcp_client.list_servers()` is nonempty; `mcpCall i` the `call_tool` result;
`timestamp i` the wall clock at the iteration's memory append. -/
structure AgentEnv where
  dispatchAction : Nat → Json
  executorPerformed : Nat → List Json
  mcpServersAvailable : Bool
  mcpCall : Nat → MCPToolResult
  timestamp : Nat → String

/-- `Agent._handle_execute_action`: reads the action description from the
params, runs the Input Executor (`_run_executor` sends a non-terminal
`executor` observer callback whose payload carries the description and the
`performed` primitive actions), then appends one `execute` Recorded Action
whose params hold only the description; `performed` is not stored in it. -/
def handle_execute_action (mem : TaskContextMemory) (params : Json)
    (performed : List Json) (ts : String) :
    Except PyError (TaskContextMemory × List (String × Bool)) := do
  let action_desc ← pyGetD params "action" (.str "")
  let _ := performed
  let callbacks := [("executor", false)]
  let mem := mem.add_dispatcher_action "execute" (.obj [("action", action_desc)]) .null ts
  .ok (mem, callbacks)

/-- `Agent._handle_mcp_action`: reads server, tool and tool params; with no
connected server it synthesizes a failure record without contacting the
manager, otherwise it records the manager's `MCPToolResult`. Either way one
`mcp` Recorded Action is appended and one non-terminal `mcp` observer
callback is sent. -/
def handle_mcp_action (mem : TaskContextMemory) (params : Json)
    (serversAvailable : Bool) (callResult : MCPToolResult) (ts : String) :
    Except PyError (TaskContextMemory × List (String × Bool)) := do
  let server ← pyGetD params "server" (.str "")
  let tool ← pyGetD params "tool" (.str "")
  let tool_params ← pyGetD params "params" (.obj [])
  if serversAvailable = false then
    let mem := mem.add_dispatcher_action "mcp"
      (.obj [("server", server), ("tool", tool), ("params", tool_params),
             ("success", .bool false),
             ("error", .str "MCP Client 未初始化或无可用服务器")]) .null ts
    .ok (mem, [("mcp", false)])
  else
    let mem := mem.add_dispatcher_action "mcp"
      (.obj [("server", server), ("tool", tool), ("params", tool_params),
             ("success", .bool callResult.success),
             ("data_summary", if callResult.success then callResult.data else .null),
             ("error", if callResult.success then .null else .str callResult.error_message)])
      .null ts
    .ok (mem, [("mcp", false)])

/-- Result of one `Agent.process` run: how many `Planner.dispatch` calls were
made, the observer callbacks sent in order as (role, `is_complete`) pairs,
the terminal outcome and the final task memory. -/
structure LoopResult where
  dispatchCalls : Nat
  callbacks : List (String × Bool)
  outcome : LoopOutcome
  memory : TaskContextMemory
deriving Repr

/-- Comparison of a Python value against a string literal (`action_type ==
"execute"`): equal only when the value is that string. -/
def jsonEqStr : Json → String → Bool
  | .str s, t => s = t
  | _, _ => false

/-- One pass of the `while` loop body of `Agent.process` at iteration `i`:
the dispatch round (`_run_dispatcher` sends a non-terminal `planner` observer
callback), the empty-or-missing-`type` check, and the `if/elif` routing on
the action type. Returns the callbacks sent, the new memory, and
`some outcome` when the body breaks out of the loop (`none` to keep
iterating). In the `save_info` branch, `saved_info[key] = value` raises
`TypeError` when the planner-supplied key is unhashable (a JSON array or
object); a hashable non-string key, or a non-string value or `new_plan`,
is stored by Python outside the `Dict[str, str]`/`str` declared field types
of `TaskContextMemory` and is marked `PyError.unmodelled` here (the
embedding leaves that cell undefined; no theorem relies on it). -/
def loopStep (env : AgentEnv) (i : Nat) (mem : TaskContextMemory) :
    Except PyError (List (String × Bool) × TaskContextMemory × Option LoopOutcome) := do
  let action := env.dispatchAction i
  let planner_cb := [("planner", false)]
  if pyTruthy action = false then
    .ok (planner_cb, mem, some .noAction)
  else do
    let ty ← pyGetD action "type" .null
    if pyTruthy ty = false then
      .ok (planner_cb, mem, some .noAction)
    else do
      let params ← pyGetD action "params" (.obj [])
      if jsonEqStr ty "execute" then do
        let (mem2, cbs) ← handle_execute_action mem params (env.executorPerformed i)
          (env.timestamp i)
        .ok (planner_cb ++ cbs, mem2, none)
      else if jsonEqStr ty "save_info" then do
        let key ← pyGetD params "key" (.str "")
        let value ← pyGetD params "value" (.str "")
        match key, value with
        | .str k, .str v =>
          let mem2 := mem.save_info k v
          let mem3 := mem2.add_dispatcher_action "save_info"
            (.obj [("key", key), ("value", value)]) .null (env.timestamp i)
          .ok (planner_cb, mem3, none)
        | .arr _, _ => .error .typeError
        | .obj _, _ => .error .typeError
        | _, _ => .error .unmodelled
      else if jsonEqStr ty "modify_plan" then do
        let new_plan ← pyGetD params "new_plan" (.str "")
        match new_plan with
        | .str p =>
          let mem2 := mem.set_plan p
          let mem3 := mem2.add_dispatcher_action "modify_plan"
            (.obj [("new_plan", new_plan)]) .null (env.timestamp i)
          .ok (planner_cb, mem3, none)
        | _ => .error .unmodelled
      else if jsonEqStr ty "mcp" then do
        let (mem2, cbs) ← handle_mcp_action mem params env.mcpServersAvailable
          (env.mcpCall i) (env.timestamp i)
        .ok (planner_cb ++ cbs, mem2, none)
      else if jsonEqStr ty "reply" then do
        let message ← pyGetD params "message" (.str "任务已完成")
        let mem2 := mem.add_dispatcher_action "reply"
          (.obj [("message", message)]) .null (env.timestamp i)
        .ok (planner_cb ++ [("reply", true)], mem2, some (.replied message))
      else
        .ok (planner_cb, mem, none)

/-- Iteration of the `while iteration < max_iterations` loop of
`Agent.process`, with `fuel = max_iterations - iteration` and the dispatch
calls and callbacks accumulated so far. Running out of fuel is the
`iteration >= max_iterations` exit, reported as the stopped-not-finished
outcome. -/
def agentLoop (env : AgentEnv) :
    Nat → Nat → Nat → List (String × Bool) → TaskContextMemory →
    Except PyError LoopResult
  | 0, _, calls, cbs, mem => .ok ⟨calls, cbs, .budgetExhausted, mem⟩
  | fuel + 1, iter, calls, cbs, mem =>
    match loopStep env (iter + 1) mem with
    | .error e => .error e
    | .ok (stepCbs, mem2, some outcome) => .ok ⟨calls + 1, cbs ++ stepCbs, outcome, mem2⟩
    | .ok (stepCbs, mem2, none) =>
      agentLoop env fuel (iter + 1) (calls + 1) (cbs ++ stepCbs) mem2

/-- `Agent.process` after the MCP initialization: the initial plan round
(`_run_initial_plan` stores the plan and sends one non-terminal `planner`
observer callback), then the bounded dispatch loop. -/
def processRun (env : AgentEnv) (initialPlan : String) (max_iterations : Nat)
    (mem : TaskContextMemory) : Except PyError LoopResult :=
  agentLoop env max_iterations 0 0 [("planner", false)] (mem.set_plan initialPlan)

/-- Number of observer callbacks flagged `is_complete=True`. -/
def countTerminal (cbs : List (String × Bool)) : Nat :=
  (cbs.filter (fun cb => cb.2)).length

/-- Whether a JSON value is a dict. -/
def isDictJson : Json → Bool
  | .obj _ => true
  | _ => false

/-- Number of terminal observer callbacks a loop outcome accounts for: one
for the `reply` break, zero otherwise. -/
def repliedCount : Option LoopOutcome → Nat
  | some (.replied _) => 1
  | _ => 0

/-- Whether a JSON value is a string. -/
def isStrJson : Json → Bool
  | .str _ => true
  | _ => false

/-- A dispatch decision envelope that is non-empty, schema-conformant and not
a `reply`: a JSON object whose `type` is truthy and is not `"reply"`, whose
`params` (the slot every routed handler reads with `.get`) default to or
form a dict, and whose `save_info` key/value and `modify_plan` new plan —
the slots the code writes into the `Dict[str, str]` scratch map and the
`str` plan — are strings. An envelope outside this set can abort the run
instead: a `save_info` key that is a JSON object makes
`saved_info[key] = value` raise `TypeError` (see the C2 counterexample). -/
def wellFormedNonReply (a : Json) : Bool :=
  match a with
  | .obj fs =>
    match (lookupField fs "params").getD (.obj []) with
    | .obj pf =>
      pyTruthy (.obj fs) &&
      pyTruthy ((lookupField fs "type").getD .null) &&
      !(jsonEqStr ((lookupField fs "type").getD .null) "reply") &&
      (!(jsonEqStr ((lookupField fs "type").getD .null) "save_info") ||
        (isStrJson ((lookupField pf "key").getD (.str "")) &&
         isStrJson ((lookupField pf "value").getD (.str "")))) &&
      (!(jsonEqStr ((lookupField fs "type").getD .null) "modify_plan") ||
        isStrJson ((lookupField pf "new_plan").getD (.str "")))
    | _ => false
  | _ => false

/-! Helper lemmas shared by the claim theorems. -/

/-- Appending a batch of actions concatenates them onto the history. -/
theorem appendAll_dispatcher_actions :
    ∀ (acts : List DispatcherAction) (m : TaskContextMemory),
      (appendAll m acts).dispatcher_actions = m.dispatcher_actions ++ acts
  | [], m => by simp [appendAll]
  | a :: rest, m => by
    have ih := appendAll_dispatcher_actions rest
      (m.add_dispatcher_action a.action_type a.params a.result a.timestamp)
    simp only [appendAll, List.foldl_cons] at ih ⊢
    rw [ih]
    simp [TaskContextMemory.add_dispatcher_action]

/-- The step counter tracks the history length across any sequence of memory
mutations. -/
theorem memOps_preserve_counter :
    ∀ (ops : List MemOp) (m : TaskContextMemory),
      m.current_step = (m.dispatcher_actions.length : Int) →
      (ops.foldl applyMemOp m).current_step
        = ((ops.foldl applyMemOp m).dispatcher_actions.length : Int)
  | [], _, h => h
  | op :: rest, m, h => by
    simp only [List.foldl_cons]
    apply memOps_preserve_counter rest
    cases op with
    | addAction t p r ts =>
      simp [applyMemOp, TaskContextMemory.add_dispatcher_action, h]
    | setPlan p => simpa [applyMemOp, TaskContextMemory.set_plan] using h
    | saveInfo k v => simpa [applyMemOp, TaskContextMemory.save_info] using h

/-- C1 (amended): for every sequence of appended actions on a fresh memory,
`get_all_actions` returns them in call order, and for every `n ≥ 1`
`get_recent_actions n` returns exactly the last `min n len` of them in the
same order (oldest of the selected window first); the embedding is purely
functional, so neither read mutates the history. The claim's original
`n ≥ 0` bound fails at `n = 0`, where the Python slice `[-0:]` yields the
whole list (see the counterexample). -/
theorem c1_recent_actions_in_order (tid q rf c : String)
    (acts : List DispatcherAction) (n : Nat) (hn : 1 ≤ n) :
    (appendAll (TaskContextMemory.init tid q rf c) acts).get_all_actions = acts ∧
    (appendAll (TaskContextMemory.init tid q rf c) acts).get_recent_actions n
      = lastN acts (min n acts.length) := by
  have hall : (appendAll (TaskContextMemory.init tid q rf c) acts).dispatcher_actions = acts := by
    simp [appendAll_dispatcher_actions, TaskContextMemory.init]
  refine ⟨hall, ?_⟩
  simp only [TaskContextMemory.get_recent_actions, hall, pySliceLast, lastN]
  by_cases h : acts.length > n
  · have hn0 : ¬ n = 0 := by omega
    have hmin : min n acts.length = n := by omega
    simp [h, hn0, hmin]
  · have hmin : min n acts.length = acts.length := by omega
    simp [h, hmin]

/-- C1 counterexample: after one `add_dispatcher_action` append,
`get_recent_actions 0` returns the whole one-element history
(`xs[-0:]` is `xs[0:]`), while the claim's `min(0, 1) = 0` demands the empty
window: the claim is false at `n = 0`. -/
theorem c1_recent_actions_zero_counterexample :
    (((TaskContextMemory.init "t" "q" "rf" "c").add_dispatcher_action
        "execute" (.obj []) .null "t1").get_recent_actions 0).length = 1 ∧
    min 0 (((TaskContextMemory.init "t" "q" "rf" "c").add_dispatcher_action
        "execute" (.obj []) .null "t1").get_all_actions).length = 0 := by
  exact ⟨rfl, rfl⟩

/-- C1 witness: the amended theorem applied to a two-action history and
`n = 1`. -/
theorem c1_recent_actions_in_order_witness :
    1 ≤ 1 ∧
    ((appendAll (TaskContextMemory.init "t" "q" "rf" "c")
        [⟨"execute", .obj [], .null, "t1"⟩, ⟨"reply", .obj [], .null, "t2"⟩]).get_all_actions
      = [⟨"execute", .obj [], .null, "t1"⟩, ⟨"reply", .obj [], .null, "t2"⟩] ∧
    (appendAll (TaskContextMemory.init "t" "q" "rf" "c")
        [⟨"execute", .obj [], .null, "t1"⟩, ⟨"reply", .obj [], .null, "t2"⟩]).get_recent_actions 1
      = lastN ([⟨"execute", .obj [], .null, "t1"⟩, ⟨"reply", .obj [], .null, "t2"⟩]
            : List DispatcherAction)
          (min 1 ([⟨"execute", Json.obj [], Json.null, "t1"⟩,
                   ⟨"reply", Json.obj [], Json.null, "t2"⟩] : List DispatcherAction).length)) :=
  ⟨by decide,
   c1_recent_actions_in_order "t" "q" "rf" "c"
     [⟨"execute", .obj [], .null, "t1"⟩, ⟨"reply", .obj [], .null, "t2"⟩] 1 (by decide)⟩

/-- C9: `add_dispatcher_action` appends exactly one action and increments the
step counter by exactly one; `set_plan` and `save_info` leave the counter
unchanged; hence on a freshly constructed memory, `current_step` equals the
number of recorded actions after any sequence of memory operations. -/
theorem c9_step_counter_invariant (tid q rf c : String) :
    (∀ (m : TaskContextMemory) (t : String) (p r : Json) (ts : String),
      (m.add_dispatcher_action t p r ts).current_step = m.current_step + 1 ∧
      (m.add_dispatcher_action t p r ts).dispatcher_actions.length
        = m.dispatcher_actions.length + 1) ∧
    (∀ (m : TaskContextMemory) (p : String),
      (m.set_plan p).current_step = m.current_step) ∧
    (∀ (m : TaskContextMemory) (k v : String),
      (m.save_info k v).current_step = m.current_step) ∧
    (∀ ops : List MemOp,
      (ops.foldl applyMemOp (TaskContextMemory.init tid q rf c)).current_step
        = ((ops.foldl applyMemOp (TaskContextMemory.init tid q rf c)).dispatcher_actions.length
            : Int)) := by
  refine ⟨?_, ?_, ?_, ?_⟩
  · intro m t p r ts
    constructor
    · simp [TaskContextMemory.add_dispatcher_action]
    · simp [TaskContextMemory.add_dispatcher_action]
  · intro m p; simp [TaskContextMemory.set_plan]
  · intro m k v; simp [TaskContextMemory.save_info]
  · intro ops
    exact memOps_preserve_counter ops (TaskContextMemory.init tid q rf c) (by simp [TaskContextMemory.init])

/-- One recorded action round-trips exactly through its dict form. -/
theorem dispatcherAction_from_to (a : DispatcherAction) (now : String) :
    DispatcherAction.from_dict a.to_dict now = some a := by
  cases a
  rfl

/-- The serialized actions list decodes back to itself. -/
theorem decodeActions_round (now : String) :
    ∀ acts : List DispatcherAction,
      decodeActions now (acts.map DispatcherAction.to_dict) = some acts
  | [] => rfl
  | a :: rest => by
    simp only [List.map_cons, decodeActions, dispatcherAction_from_to,
      decodeActions_round now rest, Option.bind_eq_bind, Option.some_bind]

/-- The serialized scratch map decodes back to itself. -/
theorem savedInfoFromJson_round :
    ∀ si : List (String × String),
      savedInfoFromJson (si.map fun kv => (kv.1, Json.str kv.2)) = some si
  | [] => rfl
  | (k, v) :: rest => by
    simp only [List.map_cons, savedInfoFromJson, savedInfoFromJson_round rest]
    rfl

/-- Restoring a serialized memory rebuilds it exactly, except for the caller's
`run_folder`. -/
theorem memory_from_to (m : TaskContextMemory) (rf now : String) :
    TaskContextMemory.from_dict m.to_dict rf now = some { m with run_folder := rf } := by
  cases m with
  | mk tid q plan rf0 acts si step c =>
    show TaskContextMemory.from_dict (Json.obj _) rf now = _
    simp only [TaskContextMemory.from_dict, TaskContextMemory.to_dict, lookupField,
      savedInfoToJson]
    simp only [strFieldD, lookupField, reduceIte, String.reduceEq,
      savedInfoFromJson_round, decodeActions_round, Option.bind_eq_bind,
      Option.some_bind]

/-- C7: serializing a task memory with `to_dict`, restoring it with
`from_dict`, and re-serializing yields the identical JSON object (the
embedding keeps the construction key order, so equality is exact, stronger
than equality up to key order), for every recorded action's type, params,
result and timestamp. -/
theorem c7_serialize_roundtrip (m : TaskContextMemory) (rf now : String) :
    (TaskContextMemory.from_dict m.to_dict rf now).map TaskContextMemory.to_dict
      = some m.to_dict := by
  rw [memory_from_to]
  rfl

/-- C10: with both snapshot dimensions known and nonzero, the normalized
coordinate `(x, y)` maps to `(x/1000*W, y/1000*H)`; with either dimension
still unknown (`None`), the coordinate passes through unchanged. The witness
instantiates the spec's example: `[500, 250]` on a 1920 by 1080 snapshot
yields `[960, 270]`. -/
theorem c10_convert_coordinate_spec (x y w h : ℚ) (hw : w ≠ 0) (hh : h ≠ 0) :
    convert_coordinate (some w) (some h) (x, y) = (x / 1000 * w, y / 1000 * h) ∧
    convert_coordinate none (some h) (x, y) = (x, y) ∧
    convert_coordinate (some w) none (x, y) = (x, y) ∧
    convert_coordinate none none (x, y) = (x, y) := by
  refine ⟨?_, rfl, rfl, rfl⟩
  simp [convert_coordinate, hw, hh]

/-- C10 witness: the conversion theorem at the spec's concrete example. -/
theorem c10_convert_coordinate_spec_witness :
    convert_coordinate (some 1920) (some 1080) (500, 250) = (960, 270) ∧
    convert_coordinate none none (500, 250) = (500, 250) := by
  have h := c10_convert_coordinate_spec 500 250 1920 1080 (by norm_num) (by norm_num)
  refine ⟨?_, h.2.2.2⟩
  rw [h.1]
  norm_num

/-- C8: `call_tool` with an unregistered server name returns a result with
`success=false` and the `"Server '<name>' not found"` error message, without
raising and with zero transport attempts against any session. -/
theorem c8_call_tool_unregistered (m : MCPClientManager) (server tool : String)
    (args : Json) (h : lookupField m.servers server = none) :
    (m.call_tool server tool args).1.success = false ∧
    (m.call_tool server tool args).1.error_message
      = "Server '" ++ server ++ "' not found" ∧
    (m.call_tool server tool args).2 = 0 := by
  simp [MCPClientManager.call_tool, h]

/-- C8 witness: the unregistered-server theorem on an empty manager. -/
theorem c8_call_tool_unregistered_witness :
    ((MCPClientManager.mk [] []).call_tool "filesystem" "read" (.obj [])).1.success = false ∧
    ((MCPClientManager.mk [] []).call_tool "filesystem" "read" (.obj [])).1.error_message
      = "Server 'filesystem' not found" ∧
    ((MCPClientManager.mk [] []).call_tool "filesystem" "read" (.obj [])).2 = 0 := by
  have h := c8_call_tool_unregistered (MCPClientManager.mk [] []) "filesystem" "read"
    (.obj []) rfl
  exact ⟨h.1, h.2.1, h.2.2⟩

/-- C6 (amended): `close_all` always leaves no server registered, and when the
teardown of every entered context succeeds — in particular when zero sessions
are open — it returns without raising. A failing session teardown, however,
propagates `AsyncExitStack.aclose`'s exception to the caller (which
`Agent.process` catches), so the claim's never-raises part had to be
dropped. -/
theorem c6_close_all_clears (m : MCPClientManager) :
    (m.close_all).1.servers = [] ∧
    (m.exitStack.all (fun b => b) = true → (m.close_all).2 = .ok ()) := by
  unfold MCPClientManager.close_all
  by_cases h : m.exitStack.all (fun b => b) = true
  · simp [h]
  · simp [h]

/-- C6 counterexample: on a manager with one registered server whose session
teardown fails, `close_all` raises to its caller instead of returning: the
claim's "never raises even if individual session teardown fails" is false on
the code. -/
theorem c6_close_all_counterexample :
    ((MCPClientManager.mk [("files", ⟨.obj [], fun _ _ => .raises "boom", []⟩)]
        [false]).close_all).2
      = .error "exception raised during session teardown" := rfl

/-- C6 witness: the amended theorem on the empty manager (zero open
sessions). -/
theorem c6_close_all_clears_witness :
    ((MCPClientManager.mk [] []).close_all).1.servers = [] ∧
    ((MCPClientManager.mk [] []).close_all).2 = .ok () := by
  have h := c6_close_all_clears (MCPClientManager.mk [] [])
  exact ⟨h.1, h.2 rfl⟩

/-! Lemmas about one pass of the dispatch loop. -/

theorem countTerminal_append (a b : List (String × Bool)) :
    countTerminal (a ++ b) = countTerminal a + countTerminal b := by
  simp [countTerminal, List.filter_append]

theorem handle_execute_action_cbs (mem : TaskContextMemory) (ps : Json)
    (perf : List Json) (ts : String) (r : TaskContextMemory × List (String × Bool))
    (h : handle_execute_action mem ps perf ts = .ok r) : r.2 = [("executor", false)] := by
  unfold handle_execute_action at h
  simp only [bind, Except.bind] at h
  split at h
  · simp at h
  · simp only [Except.ok.injEq] at h
    simp [← h]

theorem handle_mcp_action_cbs (mem : TaskContextMemory) (ps : Json) (avail : Bool)
    (res : MCPToolResult) (ts : String) (r : TaskContextMemory × List (String × Bool))
    (h : handle_mcp_action mem ps avail res ts = .ok r) : r.2 = [("mcp", false)] := by
  unfold handle_mcp_action at h
  simp only [bind, Except.bind] at h
  repeat' split at h
  all_goals first
    | (simp only [Except.ok.injEq] at h
       subst h
       rfl)
    | simp at h

theorem loopStep_terminal_count (env : AgentEnv) (i : Nat) (mem : TaskContextMemory)
    (cbs : List (String × Bool)) (mem2 : TaskContextMemory) (o : Option LoopOutcome)
    (h : loopStep env i mem = .ok (cbs, mem2, o)) :
    countTerminal cbs = repliedCount o := by
  unfold loopStep at h
  simp only [bind, Except.bind] at h
  split at h
  · simp only [Except.ok.injEq, Prod.mk.injEq] at h
    obtain ⟨h1, _, h3⟩ := h
    subst h1; subst h3; rfl
  · split at h
    · simp at h
    · next ty heq_ty =>
      split at h
      · simp only [Except.ok.injEq, Prod.mk.injEq] at h
        obtain ⟨h1, _, h3⟩ := h
        subst h1; subst h3; rfl
      · split at h
        · simp at h
        · next ps heq_ps =>
          split at h
          · -- execute
            split at h
            · simp at h
            · next r heq_r =>
              have hcb := handle_execute_action_cbs _ _ _ _ _ heq_r
              simp only [Except.ok.injEq, Prod.mk.injEq] at h
              obtain ⟨h1, _, h3⟩ := h
              subst h1; subst h3
              rw [countTerminal_append, hcb]
              rfl
          · split at h
            · -- save_info: the key/value routing adds TypeError and
              -- unmodelled arms, none of which reaches an ok result
              repeat' split at h
              all_goals
                first
                  | (simp only [Except.ok.injEq, Prod.mk.injEq] at h
                     obtain ⟨h1, _, h3⟩ := h
                     subst h1; subst h3; rfl)
                  | simp at h
            · split at h
              · -- modify_plan
                repeat' split at h
                all_goals
                  first
                    | (simp only [Except.ok.injEq, Prod.mk.injEq] at h
                       obtain ⟨h1, _, h3⟩ := h
                       subst h1; subst h3; rfl)
                    | simp at h
              · split at h
                · -- mcp
                  split at h
                  · simp at h
                  · next r heq_r =>
                    have hcb := handle_mcp_action_cbs _ _ _ _ _ _ heq_r
                    simp only [Except.ok.injEq, Prod.mk.injEq] at h
                    obtain ⟨h1, _, h3⟩ := h
                    subst h1; subst h3
                    rw [countTerminal_append, hcb]
                    rfl
                · split at h
                  · -- reply
                    split at h
                    · simp at h
                    · simp only [Except.ok.injEq, Prod.mk.injEq] at h
                      obtain ⟨h1, _, h3⟩ := h
                      subst h1; subst h3; rfl
                  · -- unknown type
                    simp only [Except.ok.injEq, Prod.mk.injEq] at h
                    obtain ⟨h1, _, h3⟩ := h
                    subst h1; subst h3; rfl

theorem pyGetD_isOk (p : Json) (k : String) (d : Json) (h : isDictJson p = true) :
    ∃ v, pyGetD p k d = .ok v := by
  cases p <;> simp_all [isDictJson, pyGetD]

theorem handle_execute_action_ok (mem : TaskContextMemory) (ps : Json)
    (perf : List Json) (ts : String) (h : isDictJson ps = true) :
    ∃ mem2, handle_execute_action mem ps perf ts = .ok (mem2, [("executor", false)]) := by
  obtain ⟨v, hv⟩ := pyGetD_isOk ps "action" (.str "") h
  refine ⟨mem.add_dispatcher_action "execute" (.obj [("action", v)]) .null ts, ?_⟩
  simp [handle_execute_action, hv, bind, Except.bind]

theorem handle_mcp_action_ok (mem : TaskContextMemory) (ps : Json)
    (avail : Bool) (res : MCPToolResult) (ts : String) (h : isDictJson ps = true) :
    ∃ mem2, handle_mcp_action mem ps avail res ts = .ok (mem2, [("mcp", false)]) := by
  obtain ⟨v1, h1⟩ := pyGetD_isOk ps "server" (.str "") h
  obtain ⟨v2, h2⟩ := pyGetD_isOk ps "tool" (.str "") h
  obtain ⟨v3, h3⟩ := pyGetD_isOk ps "params" (.obj []) h
  unfold handle_mcp_action
  simp only [h1, h2, h3, bind, Except.bind]
  cases avail
  · simp only [reduceIte]
    exact ⟨_, rfl⟩
  · simp only [Bool.true_eq_false, Bool.false_eq_true, reduceIte]
    exact ⟨_, rfl⟩

theorem isStrJson_exists (j : Json) (h : isStrJson j = true) : ∃ s, j = .str s := by
  cases j <;> simp_all [isStrJson]

theorem loopStep_wf_continues (env : AgentEnv) (i : Nat) (mem : TaskContextMemory)
    (hwf : wellFormedNonReply (env.dispatchAction i) = true) :
    ∃ cbs mem2, loopStep env i mem = .ok (cbs, mem2, none) := by
  unfold wellFormedNonReply at hwf
  cases hA : env.dispatchAction i <;> rw [hA] at hwf
  case null => cases hwf
  case bool b => cases hwf
  case num n => cases hwf
  case str s => cases hwf
  case arr xs => cases hwf
  case obj fs =>
  dsimp only at hwf
  cases hpf : (lookupField fs "params").getD (Json.obj []) <;> rw [hpf] at hwf
  case null => cases hwf
  case bool b2 => cases hwf
  case num n2 => cases hwf
  case str s2 => cases hwf
  case arr xs2 => cases hwf
  case obj pf =>
    simp only [Bool.and_eq_true] at hwf
    obtain ⟨⟨⟨⟨h1, h2⟩, h3⟩, h5⟩, h6⟩ := hwf
    have h3' : jsonEqStr ((lookupField fs "type").getD .null) "reply" = false := by
      simpa using h3
    have h4 : isDictJson ((lookupField fs "params").getD (.obj [])) = true := by
      rw [hpf]; rfl
    have hty : pyGetD (Json.obj fs) "type" Json.null
        = .ok ((lookupField fs "type").getD Json.null) := rfl
    have hps : pyGetD (Json.obj fs) "params" (Json.obj [])
        = .ok ((lookupField fs "params").getD (Json.obj [])) := rfl
    unfold loopStep
    rw [hA]
    by_cases he : jsonEqStr ((lookupField fs "type").getD .null) "execute" = true
    · obtain ⟨mem2, hh⟩ := handle_execute_action_ok mem
        ((lookupField fs "params").getD (.obj [])) (env.executorPerformed i)
        (env.timestamp i) h4
      refine ⟨[("planner", false)] ++ [("executor", false)], mem2, ?_⟩
      simp only [h1, h2, hty, hps, he, hh, bind, Except.bind, Bool.true_eq_false,
        Bool.false_eq_true, reduceIte]
    · by_cases hs : jsonEqStr ((lookupField fs "type").getD .null) "save_info" = true
      · have hkv := h5
        simp only [hs, Bool.not_true, Bool.false_or, Bool.and_eq_true] at hkv
        obtain ⟨hk1, hk2⟩ := hkv
        obtain ⟨k, hkeq⟩ := isStrJson_exists _ hk1
        obtain ⟨v, hveq⟩ := isStrJson_exists _ hk2
        have hkey : pyGetD ((lookupField fs "params").getD (Json.obj [])) "key"
            (Json.str "") = .ok (Json.str k) := by
          rw [hpf]
          exact congrArg Except.ok hkeq
        have hval : pyGetD ((lookupField fs "params").getD (Json.obj [])) "value"
            (Json.str "") = .ok (Json.str v) := by
          rw [hpf]
          exact congrArg Except.ok hveq
        refine ⟨[("planner", false)],
          (mem.save_info k v).add_dispatcher_action "save_info"
            (.obj [("key", Json.str k), ("value", Json.str v)]) .null
            (env.timestamp i), ?_⟩
        simp only [h1, h2, hty, hps, he, hs, hkey, hval, bind, Except.bind,
          Bool.true_eq_false, Bool.false_eq_true, reduceIte]
      · by_cases hm : jsonEqStr ((lookupField fs "type").getD .null) "modify_plan" = true
        · have hnp := h6
          simp only [hm, Bool.not_true, Bool.false_or] at hnp
          obtain ⟨p, hpeq⟩ := isStrJson_exists _ hnp
          have hplan : pyGetD ((lookupField fs "params").getD (Json.obj [])) "new_plan"
              (Json.str "") = .ok (Json.str p) := by
            rw [hpf]
            exact congrArg Except.ok hpeq
          refine ⟨[("planner", false)],
            (mem.set_plan p).add_dispatcher_action "modify_plan"
              (.obj [("new_plan", Json.str p)]) .null (env.timestamp i), ?_⟩
          simp only [h1, h2, hty, hps, he, hs, hm, hplan, bind, Except.bind,
            Bool.true_eq_false, Bool.false_eq_true, reduceIte]
        · by_cases hc : jsonEqStr ((lookupField fs "type").getD .null) "mcp" = true
          · obtain ⟨mem2, hh⟩ := handle_mcp_action_ok mem
              ((lookupField fs "params").getD (.obj [])) env.mcpServersAvailable
              (env.mcpCall i) (env.timestamp i) h4
            refine ⟨[("planner", false)] ++ [("mcp", false)], mem2, ?_⟩
            simp only [h1, h2, hty, hps, he, hs, hm, hc, hh, bind, Except.bind,
              Bool.true_eq_false, Bool.false_eq_true, reduceIte]
          · refine ⟨[("planner", false)], mem, ?_⟩
            simp only [h1, h2, hty, hps, he, hs, hm, hc, h3', bind, Except.bind,
              Bool.true_eq_false, Bool.false_eq_true, reduceIte]

theorem repliedCount_some (oc : LoopOutcome) :
    repliedCount (some oc) = (if oc.isReplied then 1 else 0) := by
  cases oc <;> rfl

theorem agentLoop_terminal_count (env : AgentEnv) :
    ∀ (fuel iter calls : Nat) (cbs : List (String × Bool)) (mem : TaskContextMemory)
      (r : LoopResult), agentLoop env fuel iter calls cbs mem = .ok r →
      countTerminal r.callbacks
        = countTerminal cbs + (if r.outcome.isReplied then 1 else 0)
  | 0, iter, calls, cbs, mem, r, h => by
    simp only [agentLoop, Except.ok.injEq] at h
    subst h
    simp [LoopOutcome.isReplied]
  | fuel + 1, iter, calls, cbs, mem, r, h => by
    rw [agentLoop] at h
    cases hstep : loopStep env (iter + 1) mem with
    | error e => rw [hstep] at h; cases h
    | ok t =>
      obtain ⟨stepCbs, mem2, o⟩ := t
      rw [hstep] at h
      cases o with
      | some outcome =>
        simp only [Except.ok.injEq] at h
        subst h
        have hc := loopStep_terminal_count env (iter + 1) mem stepCbs mem2 (some outcome) hstep
        simp only [countTerminal_append, hc, repliedCount_some]
      | none =>
        have ih := agentLoop_terminal_count env fuel (iter + 1) (calls + 1)
          (cbs ++ stepCbs) mem2 r h
        have hc := loopStep_terminal_count env (iter + 1) mem stepCbs mem2 none hstep
        rw [ih, countTerminal_append, hc]
        simp [repliedCount]

theorem agentLoop_wf_exhausts (env : AgentEnv)
    (hwf : ∀ i, wellFormedNonReply (env.dispatchAction i) = true) :
    ∀ (fuel iter calls : Nat) (cbs : List (String × Bool)) (mem : TaskContextMemory),
      ∃ cbs2 mem2, agentLoop env fuel iter calls cbs mem
        = .ok ⟨calls + fuel, cbs2, .budgetExhausted, mem2⟩
  | 0, iter, calls, cbs, mem => ⟨cbs, mem, by simp [agentLoop]⟩
  | fuel + 1, iter, calls, cbs, mem => by
    obtain ⟨scbs, mem2, hstep⟩ := loopStep_wf_continues env (iter + 1) mem (hwf (iter + 1))
    obtain ⟨cbs2, mem3, hrec⟩ := agentLoop_wf_exhausts env hwf fuel (iter + 1) (calls + 1)
      (cbs ++ scbs) mem2
    refine ⟨cbs2, mem3, ?_⟩
    rw [agentLoop, hstep]
    have harith : calls + 1 + fuel = calls + (fuel + 1) := by omega
    simp only [hrec, harith]

/-- C2 (amended): with `max_iterations = 3` and a planner whose dispatch
always returns a non-empty, schema-conformant action envelope whose type is
never `"reply"` (a JSON object whose `params` form a JSON object, with
string `key`/`value` for `save_info` and a string `new_plan` for
`modify_plan`), `Agent.process` performs exactly 3 dispatch calls and then
terminates with the stopped-not-finished outcome; a 4th dispatch call never
occurs, since every call increments `dispatchCalls` once. The conformance
condition cannot be dropped: a non-empty non-reply envelope whose `save_info`
key is a JSON object instead aborts the run with an uncaught `TypeError`
(see the counterexample). -/
theorem c2_three_dispatches_then_stopped (env : AgentEnv) (plan : String)
    (mem : TaskContextMemory)
    (hwf : ∀ i, wellFormedNonReply (env.dispatchAction i) = true) :
    ∃ r, processRun env plan 3 mem = .ok r ∧ r.dispatchCalls = 3 ∧
      r.outcome = .budgetExhausted := by
  obtain ⟨cbs2, mem2, h⟩ := agentLoop_wf_exhausts env hwf 3 0 0 [("planner", false)]
    (mem.set_plan plan)
  exact ⟨⟨0 + 3, cbs2, .budgetExhausted, mem2⟩, h, rfl, rfl⟩

/-- C2 counterexample: a planner that always returns the non-empty non-reply
envelope `{"type": "save_info", "params": {"key": {}, "value": "x"}}` (its
truthiness and non-reply type are the first two conjuncts) does not reach 3
dispatch calls and the stopped outcome: `saved_info[key] = value` raises
`TypeError` (unhashable dict key) during the first iteration, `Agent.process`
re-raises it, and the run aborts with an error after a single dispatch call,
refuting the claim as stated for arbitrary non-empty non-reply envelopes. -/
theorem c2_unhashable_key_aborts_counterexample :
    pyTruthy (Json.obj [("type", .str "save_info"),
        ("params", .obj [("key", .obj []), ("value", .str "x")])]) = true ∧
    jsonEqStr ((lookupField [("type", Json.str "save_info"),
        ("params", Json.obj [("key", Json.obj []), ("value", Json.str "x")])]
        "type").getD .null) "reply" = false ∧
    processRun ⟨fun _ => .obj [("type", .str "save_info"),
        ("params", .obj [("key", .obj []), ("value", .str "x")])], fun _ => [], false,
        fun _ => ⟨false, "", "", .null, ""⟩, fun _ => "ts"⟩ "plan" 3
        (TaskContextMemory.init "t" "q" "rf" "c")
      = .error .typeError :=
  ⟨rfl, rfl, rfl⟩

/-- C2 witness: the bounded-iterations theorem on a planner that always
answers with a schema-conformant `save_info` decision. -/
theorem c2_three_dispatches_then_stopped_witness :
    ∃ r, processRun ⟨fun _ => .obj [("type", .str "save_info"),
        ("params", .obj [("key", .str "歌曲名称"), ("value", .str "Moon")])],
        fun _ => [], false,
        fun _ => ⟨false, "", "", .null, ""⟩, fun _ => "ts"⟩ "plan" 3
        (TaskContextMemory.init "t" "q" "rf" "c") = .ok r ∧
      r.dispatchCalls = 3 ∧ r.outcome = .budgetExhausted :=
  c2_three_dispatches_then_stopped _ "plan" _ (fun _ => rfl)

/-- C3 (amended): on JSON decode failure the dispatch response parser returns
the sentinel rationale `"解析失败"` paired with the empty action envelope
instead of raising, and the dispatcher treats that empty envelope as "no
action": the loop pass terminates the run with the no-action outcome, without
appending any record and without crashing. An input that decodes to a
non-dict JSON value, however, raises `AttributeError` (see the
counterexample), so "never raises" had to be weakened to decode failures. -/
theorem c3_parse_failure_returns_sentinel (content : String) (env : AgentEnv)
    (i : Nat) (mem : TaskContextMemory)
    (hfail : json_loads (stripCodeFences content) = none)
    (hdisp : env.dispatchAction i = .obj []) :
    parse_dispatch_response content = .ok (.str "解析失败", .obj []) ∧
    loopStep env i mem = .ok ([("planner", false)], mem, some .noAction) := by
  constructor
  · simp [parse_dispatch_response, hfail]
  · unfold loopStep
    rw [hdisp]
    rfl

/-- C3 counterexample: the input `"null"` decodes successfully to a non-dict
JSON value, and `json_dict.get` then raises `AttributeError`, which the
`except json.JSONDecodeError` clause does not catch: the parser does not
return the sentinel for every input string, refuting "never raises". -/
theorem c3_nondict_raises_counterexample :
    parse_dispatch_response "null" = .error .attributeError ∧
    json_loads (stripCodeFences "null") = some .null :=
  ⟨rfl, rfl⟩

/-- C3 witness: the sentinel theorem at the undecodable input `"hello"` and a
dispatcher pass fed the empty envelope. -/
theorem c3_parse_failure_returns_sentinel_witness :
    parse_dispatch_response "hello" = .ok (.str "解析失败", .obj []) ∧
    loopStep ⟨fun _ => .obj [], fun _ => [], false, fun _ => ⟨false, "", "", .null, ""⟩,
        fun _ => "ts"⟩ 1 (TaskContextMemory.init "t" "q" "rf" "c")
      = .ok ([("planner", false)], TaskContextMemory.init "t" "q" "rf" "c",
             some .noAction) :=
  c3_parse_failure_returns_sentinel "hello" _ 1 _ rfl rfl

/-- C4 (amended): within `Agent.process`, the observer callback carries
`is_complete=True` exactly once on reply-terminated runs and never otherwise:
runs that end by iteration-budget exhaustion or by an empty/missing action
envelope send no terminal-flagged callback at all (and the error path
re-raises out of `process`; the caller surfaces it as an `is_error` stream
message, not as `is_complete=True`). -/
theorem c4_terminal_flag_count (env : AgentEnv) (plan : String)
    (max_iterations : Nat) (mem : TaskContextMemory) (r : LoopResult)
    (h : processRun env plan max_iterations mem = .ok r) :
    countTerminal r.callbacks = (if r.outcome.isReplied then 1 else 0) := by
  have hl := agentLoop_terminal_count env max_iterations 0 0 [("planner", false)]
    (mem.set_plan plan) r h
  simpa [countTerminal] using hl

/-- C4 counterexample: a run ending on an empty envelope after one iteration
and a run ending by exhausting a budget of 2 iterations both finish with zero
`is_complete=True` callbacks — not exactly one — refuting the claim for the
runs it explicitly includes. -/
theorem c4_no_terminal_flag_counterexample :
    (processRun ⟨fun _ => .obj [], fun _ => [], false,
        fun _ => ⟨false, "", "", .null, ""⟩, fun _ => "ts"⟩ "plan" 2
        (TaskContextMemory.init "t" "q" "rf" "c")
      = .ok ⟨1, [("planner", false), ("planner", false)], .noAction,
             (TaskContextMemory.init "t" "q" "rf" "c").set_plan "plan"⟩) ∧
    countTerminal [("planner", false), ("planner", false)] = 0 ∧
    (processRun ⟨fun _ => .obj [("type", .str "wait")], fun _ => [], false,
        fun _ => ⟨false, "", "", .null, ""⟩, fun _ => "ts"⟩ "plan" 2
        (TaskContextMemory.init "t" "q" "rf" "c")
      = .ok ⟨2, [("planner", false), ("planner", false), ("planner", false)],
             .budgetExhausted, (TaskContextMemory.init "t" "q" "rf" "c").set_plan "plan"⟩) ∧
    countTerminal [("planner", false), ("planner", false), ("planner", false)] = 0 :=
  ⟨rfl, rfl, rfl, rfl⟩

/-- C4 witness: the terminal-flag theorem on a run whose first dispatch is a
`reply`, where the flag is sent exactly once. -/
theorem c4_terminal_flag_count_witness :
    countTerminal (LoopResult.mk 1
        [("planner", false), ("planner", false), ("reply", true)]
        (.replied (.str "done"))
        (((TaskContextMemory.init "t" "q" "rf" "c").set_plan "plan").add_dispatcher_action
          "reply" (.obj [("message", .str "done")]) .null "ts")).callbacks
      = (if (LoopResult.mk 1
            [("planner", false), ("planner", false), ("reply", true)]
            (.replied (.str "done"))
            (((TaskContextMemory.init "t" "q" "rf" "c").set_plan "plan").add_dispatcher_action
              "reply" (.obj [("message", .str "done")]) .null "ts")).outcome.isReplied
         then 1 else 0) :=
  c4_terminal_flag_count
    ⟨fun _ => .obj [("type", .str "reply"), ("params", .obj [("message", .str "done")])],
     fun _ => [], false, fun _ => ⟨false, "", "", .null, ""⟩, fun _ => "ts"⟩
    "plan" 3 (TaskContextMemory.init "t" "q" "rf" "c") _ rfl

/-- C5 (amended): on an `execute` decision, the handler delegates the action
description to the Input Executor (whose observer callback reports the
performed primitive actions) and appends exactly one `execute` Recorded
Action — but that record's params carry only the action description; the list
of performed primitive actions is not stored in it. -/
theorem c5_execute_records_description (mem : TaskContextMemory) (params : Json)
    (performed : List Json) (ts : String) (desc : Json)
    (h : pyGetD params "action" (.str "") = .ok desc) :
    handle_execute_action mem params performed ts
      = .ok (mem.add_dispatcher_action "execute" (.obj [("action", desc)]) .null ts,
             [("executor", false)]) ∧
    (mem.add_dispatcher_action "execute" (.obj [("action", desc)]) .null ts).dispatcher_actions
      = mem.dispatcher_actions ++ [⟨"execute", .obj [("action", desc)], .null, ts⟩] := by
  constructor
  · simp [handle_execute_action, h, bind, Except.bind]
  · rfl

/-- C5 counterexample: executing the description `"点击确认按钮"` while the
Input Executor performs one primitive action appends a Recorded Action whose
params are exactly the one-field dict `{"action": "点击确认按钮"}`: the dict has
no `"actions"` field (the key under which the observer payload carries the
performed list), so the record's parameters do not carry the list of
primitive actions the claim requires. -/
theorem c5_execute_params_lack_primitives_counterexample :
    handle_execute_action (TaskContextMemory.init "t" "q" "rf" "c")
        (.obj [("action", .str "点击确认按钮")])
        [.obj [("name", .str "computer_use"),
               ("arguments", .obj [("action", .str "left_click")])]] "t1"
      = .ok ((TaskContextMemory.init "t" "q" "rf" "c").add_dispatcher_action "execute"
               (.obj [("action", .str "点击确认按钮")]) .null "t1",
             [("executor", false)]) ∧
    lookupField [("action", Json.str "点击确认按钮")] "actions" = none :=
  ⟨rfl, rfl⟩

/-- C5 witness: the execute-handler theorem at a concrete decision. -/
theorem c5_execute_records_description_witness :
    handle_execute_action (TaskContextMemory.init "t" "q" "rf" "c")
        (.obj [("action", .str "打开浏览器")]) [] "t1"
      = .ok ((TaskContextMemory.init "t" "q" "rf" "c").add_dispatcher_action "execute"
               (.obj [("action", .str "打开浏览器")]) .null "t1",
             [("executor", false)]) ∧
    ((TaskContextMemory.init "t" "q" "rf" "c").add_dispatcher_action "execute"
        (.obj [("action", .str "打开浏览器")]) .null "t1").dispatcher_actions
      = (TaskContextMemory.init "t" "q" "rf" "c").dispatcher_actions
          ++ [⟨"execute", .obj [("action", .str "打开浏览器")], .null, "t1"⟩] :=
  c5_execute_records_description (TaskContextMemory.init "t" "q" "rf" "c")
    (.obj [("action", .str "打开浏览器")]) [] "t1" (.str "打开浏览器") rfl
